import Mathlib

/-!
Verification development for the session-lifecycle subsystem of the
AI-powered-online-library backend.

The Lean definitions below are a shallow embedding of the Python sources:

* `app/core/settings.py` — `SessionSettings`, `get_session_settings`;
* `app/models/session.py` together with the alembic migrations
  `56a88873c092_add_sessions_table.py` and
  `d8a5338b78cc_enforce_single_active_session.py` — the `sessions` table;
* `app/services/session_service.py` — `SessionService` operations;
* `app/security/session.py` — the `require_session` request guard;
* `app/routers/auth.py` and `app/services/auth_service.py` — the sign-in
  endpoint and `AuthService.authenticate`.

Timestamps are carried as integers counting seconds of UTC time (the code
normalises every stored timestamp to UTC before comparing, via
`_coerce_utc`, so a single integer timeline is faithful).  `timedelta`
values are likewise embedded as second counts.

Two layers are modelled.  The *store layer* treats the session operations
as transformations of the list of committed rows of the `sessions` table
(whose columns, including `revoked_at`, come from the migrations).  ORM
statements are embedded together with SQLAlchemy's name resolution: the
string keys of the values dict of a bulk `update(...)` are resolved
against the mapped attributes of the entity, and an unknown key raises
(`InvalidRequestError` / "Unconsumed column names") before the statement
executes — never a silent drop, and never an `IntegrityError`.  This is
decisive for `create_session` and `revoke_all_for_member`, whose
revoke-all statement names `revoked_at`, a column the `Session` class
does not declare.  The *mapping layer* (`SessionObj` and friends, before
the theorems about `mark_revoked` persistence) records in addition what
a flush of a loaded instance persists: mapped columns only, so plain
attribute writes such as `session.revoked_at = now` never reach the
table.
-/

namespace App

/-- Error cases raised while building `SessionSettings`:
`valueError` models Python's `int()` failing on a malformed environment
string, the others model pydantic validation failures of the
corresponding field (`ge=1` bounds, `Literal` check on `samesite`). -/
inductive SettingsError where
  | valueError
  | invalidIdleTimeout
  | invalidAbsoluteTimeout
  | invalidSamesite
deriving Repr, DecidableEq

/-- Runtime configuration for cookie-based sessions, mirroring the
pydantic model `SessionSettings` in `app/core/settings.py`. -/
structure SessionSettings where
  idle_timeout_minutes : Int
  absolute_timeout_hours : Int
  cookie_name : String
  cookie_secure : Bool
  cookie_samesite : String
  cookie_domain : Option String
  cookie_path : String
  cookie_max_age_seconds : Option Int
  send_idle_remaining_header : Bool
deriving Repr, DecidableEq

/-- Python's `str.lower()` as used on the (ASCII) configuration strings:
character-wise ASCII lowercasing.  (Defined structurally over the char
list so that it evaluates inside the kernel.) -/
def pyLower (s : String) : String := ⟨s.data.map Char.toLower⟩

/-- Validated construction of `SessionSettings`: pydantic enforces
`ge=1` on both timeout fields and, after the `_normalize_samesite`
lowercasing validator, membership of `cookie_samesite` in the literal
set `{"lax", "strict", "none"}`. -/
def SessionSettings.make (idle abs : Int) (name : String) (secure : Bool)
    (samesite : String) (domain : Option String) (path : String)
    (maxAge : Option Int) (sendHeader : Bool) :
    Except SettingsError SessionSettings :=
  if idle < 1 then .error .invalidIdleTimeout
  else if abs < 1 then .error .invalidAbsoluteTimeout
  else
    let ss := pyLower samesite
    if ss = "lax" ∨ ss = "strict" ∨ ss = "none" then
      .ok ⟨idle, abs, name, secure, ss, domain, path, maxAge, sendHeader⟩
    else .error .invalidSamesite

/-- `_as_bool` from `app/core/settings.py`: `None` yields the default,
otherwise the lowercased string is compared against the truthy set. -/
def asBool (value : Option String) (default : Bool) : Bool :=
  match value with
  | none => default
  | some s =>
      let l := pyLower s
      l = "1" ∨ l = "true" ∨ l = "t" ∨ l = "yes" ∨ l = "y" ∨ l = "on"

/-- `int(os.getenv(key, default))`: a missing variable falls back to the
default, a present one must parse as an integer (`ValueError` otherwise). -/
def pyIntFrom (value : Option String) (default : Int) : Except SettingsError Int :=
  match value with
  | none => .ok default
  | some s =>
      match s.toInt? with
      | some n => .ok n
      | none => .error .valueError

/-- `get_session_settings` from `app/core/settings.py`: each field is
read from the environment (modelled as a partial map from variable name
to string) with the defaults of the source, then validated by the
pydantic model.  `cookie_max_age_seconds` uses the walrus pattern
`int(value) if (value := os.getenv(...)) else None`, so an unset *or
empty* variable yields `None`. -/
def get_session_settings (env : String → Option String) :
    Except SettingsError SessionSettings := do
  let idle ← pyIntFrom (env "SESSION_IDLE_TIMEOUT_MINUTES") 30
  let abs ← pyIntFrom (env "SESSION_ABSOLUTE_TIMEOUT_HOURS") 24
  let maxAge ←
    match env "SESSION_COOKIE_MAX_AGE_SECONDS" with
    | none => pure (none : Option Int)
    | some s =>
        if s = "" then pure none
        else
          match s.toInt? with
          | some n => pure (some n)
          | none => Except.error SettingsError.valueError
  SessionSettings.make idle abs
    ((env "SESSION_COOKIE_NAME").getD "session_id")
    (asBool (env "SESSION_COOKIE_SECURE") false)
    ((env "SESSION_COOKIE_SAMESITE").getD "lax")
    (env "SESSION_COOKIE_DOMAIN")
    ((env "SESSION_COOKIE_PATH").getD "/")
    maxAge
    (asBool (env "SESSION_SEND_IDLE_REMAINING_HEADER") true)

/-- `SessionService.idle_timeout`: `timedelta(minutes=...)`, in seconds. -/
def idleTimeout (s : SessionSettings) : Int := 60 * s.idle_timeout_minutes

/-- `SessionService.absolute_timeout`: `timedelta(hours=...)`, in seconds. -/
def absoluteTimeout (s : SessionSettings) : Int := 3600 * s.absolute_timeout_hours

/-- One committed row of the `sessions` table.  Columns are those of the
table after both alembic migrations: `56a88873c092` creates
`id, member_id, created_at, last_active_at, user_agent, ip_addr, revoked`
and `d8a5338b78cc` adds the nullable `revoked_at`. -/
structure SessionRow where
  id : String
  member_id : String
  created_at : Int
  last_active_at : Int
  user_agent : Option String
  ip_addr : Option String
  revoked : Bool
  revoked_at : Option Int
deriving Repr, DecidableEq

/-- The columns the ORM class `Session` in `app/models/session.py`
declares with `mapped_column`.  `revoked_at` is not among them. -/
def sessionModelColumns : List String :=
  ["id", "member_id", "created_at", "last_active_at", "user_agent",
   "ip_addr", "revoked"]

/-- The columns of the `sessions` *table* after the alembic migrations
(`56a88873c092` plus the `revoked_at` column added by `d8a5338b78cc`). -/
def sessionsTableColumns : List String :=
  sessionModelColumns ++ ["revoked_at"]

/-- The string keys of the values dict
`{"revoked": True, "revoked_at": now}` that both `create_session` and
`revoke_all_for_member` pass to `.update(...)`. -/
def bulkRevokeUpdateKeys : List String := ["revoked", "revoked_at"]

/-- The fresh `SessionModel(member_id=..., user_agent=..., ip_addr=...,
created_at=now, last_active_at=now)` built at the top of
`SessionService.create_session`; `revoked` defaults to false and
`revoked_at` to NULL. -/
def mkSessionRow (id memberId : String) (ua ip : Option String) (now : Int) :
    SessionRow :=
  ⟨id, memberId, now, now, ua, ip, false, none⟩

/-- Primary-key lookup `db.get(SessionModel, session_id)`. -/
def findById (db : List SessionRow) (sid : String) : Option SessionRow :=
  db.find? (fun r => r.id = sid)

/-- Whether some committed row already carries the given primary key. -/
def anyId (db : List SessionRow) (sid : String) : Bool :=
  db.any (fun r => r.id = sid)

/-- Persisting a mutation of the row with primary key `sid`:
`db.add(session); db.commit()` on an already-persistent instance updates
that row in place. -/
def updateById (db : List SessionRow) (sid : String) (f : SessionRow → SessionRow) :
    List SessionRow :=
  db.map (fun r => if r.id = sid then f r else r)

/-- Failures surfaced by the store layer.  `integrityError` is
`sqlalchemy.exc.IntegrityError`, raised by a flush when a database
constraint rejects an insert — the only exception
`create_session` catches.  `unmappedColumnError` is the error SQLAlchemy
raises while *preparing* an ORM UPDATE whose values dict names a key
that is not a mapped attribute/column of the entity
(`InvalidRequestError` / "Unconsumed column names"); it is raised before
the statement executes, regardless of which rows would match, and it is
not an `IntegrityError`. -/
inductive StoreError where
  | integrityError
  | unmappedColumnError
deriving Repr, DecidableEq

/-- The bulk statement shared by `create_session` and
`revoke_all_for_member`:
`query(SessionModel).filter(member_id == m, revoked.is_(False))
 .update({"revoked": True, "revoked_at": now}, synchronize_session=False)`.
SQLAlchemy first resolves every key of the values dict against the
mapped attributes of `SessionModel`; only if all of them resolve does
the UPDATE run, revoking every active row of the member.  The key
`revoked_at` is not in `sessionModelColumns` (the class maps no such
column, although the migrated table has it), so on this code base the
statement always raises before updating anything. -/
def bulkRevokeActive (db : List SessionRow) (memberId : String) (now : Int) :
    Except StoreError (List SessionRow) :=
  if bulkRevokeUpdateKeys.all (fun k => k ∈ sessionModelColumns) then
    .ok (db.map (fun r =>
      if r.member_id = memberId ∧ r.revoked = false then
        { r with revoked := true, revoked_at := some now }
      else r))
  else .error .unmappedColumnError

/-- The `while True` body of `SessionService.create_session`.
`attempts` is the source's counter.  Each iteration builds a fresh
`SessionModel` (`newId k` is the uuid4 default of attempt `k`) and runs
one transaction: the bulk revoke, then `add` + `flush`.  The bulk revoke
is the first statement; when it raises (as it always does here, with a
non-`IntegrityError`, see `bulkRevokeActive`), the transaction context
rolls back and the exception propagates — the `except IntegrityError`
clause does not match it, so there is no retry.  `raceFail k` says
whether the flush of attempt `k` would be rejected by the partial-unique
index `uq_sessions_member_active` (a concurrent `create_session` for the
same member committing first); the flush also fails when the fresh id
collides with an existing primary key.  On a flush-time `IntegrityError`
the transaction rolls back and the loop retries until `attempts >= 2`,
when the error propagates.  The `fuel` argument only makes the recursion
structural; it is initialised at 2 and its exhaustion case coincides
with the propagated error, but with fuel 2 and the source's
`attempts >= 2` guard it is never reached. -/
def create_session_go (raceFail : Nat → Bool) (newId : Nat → String)
    (db : List SessionRow) (memberId : String) (ua ip : Option String)
    (now : Int) : Nat → Nat → Nat × Except StoreError (SessionRow × List SessionRow)
  | attempts, 0 => (attempts, .error .integrityError)
  | attempts, fuel + 1 =>
      let a := attempts + 1
      let s := mkSessionRow (newId a) memberId ua ip now
      match bulkRevokeActive db memberId now with
      | .error e => (a, .error e)
      | .ok revokedDb =>
          if raceFail a ∨ anyId db (newId a) then
            if a ≥ 2 then (a, .error .integrityError)
            else create_session_go raceFail newId db memberId ua ip now a fuel
          else
            (a, .ok (s, revokedDb ++ [s]))

/-- `SessionService.create_session(member, user_agent, ip_addr)`: inside
one transaction, revoke every active session of the member and insert
the new row; a flush-time `IntegrityError` rolls back and retries,
propagating once `attempts >= 2`; any other exception (in particular the
unmapped-column error of the revoke-all statement) propagates at once.
The member argument is consumed only as `member.id`, read once when the
new `SessionModel` is built; the embedding therefore takes that id (the
sign-in router's behaviour of passing a different object is modelled
separately with `signin`).  Returns the number of attempts performed
together with either the error or the returned session and the
committed table. -/
def create_session (raceFail : Nat → Bool) (newId : Nat → String)
    (db : List SessionRow) (memberId : String) (ua ip : Option String)
    (now : Int) : Nat × Except StoreError (SessionRow × List SessionRow) :=
  create_session_go raceFail newId db memberId ua ip now 0 2

/-- `SessionService.get_active_session(session_id)`: primary-key lookup,
then `if not session or session.revoked: return None`. -/
def get_active_session (db : List SessionRow) (sid : String) : Option SessionRow :=
  match findById db sid with
  | none => none
  | some s => if s.revoked then none else some s

/-- The row-level assignments of `SessionService.mark_revoked(session)`:
if already revoked, back-fill `revoked_at` only when it is NULL,
otherwise leave the row alone; if active, set `revoked = True` and
`revoked_at = now`.  (`now` is `datetime.now(timezone.utc)` taken inside
the method.) -/
def mark_revoked (now : Int) (s : SessionRow) : SessionRow :=
  if s.revoked then
    if s.revoked_at = none then { s with revoked_at := some now } else s
  else
    { s with revoked := true, revoked_at := some now }

/-- `mark_revoked` followed by its `db.add`/`db.commit`, as a table
transformation targeting the session's row. -/
def markRevokedById (db : List SessionRow) (sid : String) (now : Int) :
    List SessionRow :=
  updateById db sid (mark_revoked now)

/-- The row-level assignment of `SessionService.slide_session(session,
timestamp=...)`: `session.last_active_at = timestamp`, unconditionally. -/
def slide_row (timestamp : Int) (s : SessionRow) : SessionRow :=
  { s with last_active_at := timestamp }

/-- `slide_session` followed by its commit, as a table transformation. -/
def slide_session (db : List SessionRow) (sid : String) (timestamp : Int) :
    List SessionRow :=
  updateById db sid (slide_row timestamp)

/-- `SessionService.revoke_session(session_id)`: fetch by primary key;
missing row returns `False`, otherwise `mark_revoked` and return `True`. -/
def revoke_session (db : List SessionRow) (sid : String) (now : Int) :
    Bool × List SessionRow :=
  match findById db sid with
  | none => (false, db)
  | some _ => (true, markRevokedById db sid now)

/-- `SessionService.revoke_all_for_member(member_id)`: the bulk revoke
statement, committing and returning the number of rows affected when it
executes — but the statement names the unmapped `revoked_at`, so on this
code base it always raises before updating, and nothing is committed. -/
def revoke_all_for_member (db : List SessionRow) (memberId : String) (now : Int) :
    Except StoreError (Nat × List SessionRow) :=
  match bulkRevokeActive db memberId now with
  | .error e => .error e
  | .ok db2 =>
      .ok ((db.filter (fun r => r.member_id = memberId ∧ r.revoked = false)).length,
        db2)

/-- `MemberRole` from `app/models/member.py`. -/
inductive MemberRole where
  | user
  | admin
deriving Repr, DecidableEq

/-- The `Member` ORM model (`app/models/member.py`), restricted to the
columns the session subsystem consumes (`avatar_url`, `bio`, `location`
and the audit timestamps play no role in any claim and are elided). -/
structure Member where
  id : String
  email : String
  display_name : String
  password_hash : String
  role : MemberRole
deriving Repr, DecidableEq

/-- Resolution of the `Session.member` relationship: the member row the
`member_id` foreign key points at. -/
def findMember (members : List Member) (memberId : String) : Option Member :=
  members.find? (fun m => m.id = memberId)

/-- The four failure codes of the guard in `app/security/session.py`,
each raised as HTTP 401 with the matching `detail.code`:
`not_authenticated`, `invalid_session`, `absolute_expired`,
`idle_expired`. -/
inductive GuardError where
  | notAuthenticated
  | invalidSession
  | absoluteExpired
  | idleExpired
deriving Repr, DecidableEq

/-- Successful guard outcome: the yielded member (`session.member`; the
relationship is `none` only if the foreign key dangles, which the
`ForeignKey` constraint prevents) and the optional
`X-Session-Idle-Remaining` header value. -/
structure GuardOk where
  member : Option Member
  idle_remaining : Option Int
deriving Repr, DecidableEq

/-- `require_session` from `app/security/session.py`, as a function of
the request's cookies (name-indexed), the settings, the member table,
the committed session table and the validation instant `now`
(`datetime.now(timezone.utc)`; `mark_revoked`'s own clock read is the
same instant in this single-clock embedding).  Returns the outcome
together with the committed table after the guard's side effect
(lazy revocation on expiry, sliding on success).  The checks appear in
source order: missing/empty cookie, then `get_active_session`, then the
absolute-timeout comparison, then the idle-timeout comparison, then the
optional header and `slide_session`. -/
def require_session (settings : SessionSettings) (members : List Member)
    (db : List SessionRow) (cookies : String → Option String) (now : Int) :
    Except GuardError GuardOk × List SessionRow :=
  match cookies settings.cookie_name with
  | none => (.error .notAuthenticated, db)
  | some sid =>
      if sid = "" then (.error .notAuthenticated, db)
      else
        match get_active_session db sid with
        | none => (.error .invalidSession, db)
        | some s =>
            if now - s.created_at > absoluteTimeout settings then
              (.error .absoluteExpired, markRevokedById db s.id now)
            else if now - s.last_active_at > idleTimeout settings then
              (.error .idleExpired, markRevokedById db s.id now)
            else
              let hdr : Option Int :=
                if settings.send_idle_remaining_header then
                  some (max 0 (idleTimeout settings - (now - s.last_active_at)))
                else none
              (.ok ⟨findMember members s.member_id, hdr⟩,
                slide_session db s.id now)

/-- Mapping layer: an in-memory `Session` instance as Python sees it,
with its mapped
attributes, plus the state of the *plain* instance attribute
`revoked_at` that `SessionService.mark_revoked` reads and writes even
though the class maps no such column.  `none` means the attribute is
absent (reading it raises `AttributeError`); `some v` means a plain
attribute holding `v` was assigned on this instance. -/
structure SessionObj where
  id : String
  member_id : String
  created_at : Int
  last_active_at : Int
  user_agent : Option String
  ip_addr : Option String
  revoked : Bool
  py_revoked_at : Option (Option Int)
deriving Repr, DecidableEq

/-- Python-level failure surfaced by the mapping layer. -/
inductive PyError where
  | attributeError
deriving Repr, DecidableEq

/-- Loading a committed row into an ORM instance: the mapped columns are
populated; `revoked_at` is not an attribute of the class, so a freshly
loaded instance has no such attribute regardless of the column's stored
value. -/
def loadObj (r : SessionRow) : SessionObj :=
  ⟨r.id, r.member_id, r.created_at, r.last_active_at, r.user_agent,
   r.ip_addr, r.revoked, none⟩

/-- Flushing an instance back to its row: `db.commit()` writes the
mapped columns; the plain `revoked_at` attribute is invisible to the
unit of work, so the row's `revoked_at` column keeps its previous
value. -/
def flushObj (r : SessionRow) (o : SessionObj) : SessionRow :=
  ⟨o.id, o.member_id, o.created_at, o.last_active_at, o.user_agent,
   o.ip_addr, o.revoked, r.revoked_at⟩

/-- `SessionService.mark_revoked` acting on the in-memory instance,
statement by statement: an already-revoked instance first *reads*
`session.revoked_at` (raising `AttributeError` when the attribute is
absent), back-fills it when it is `None`, and otherwise returns without
touching the instance; an active instance assigns `revoked = True` and
`revoked_at = now`. -/
def mark_revoked_obj (now : Int) (o : SessionObj) : Except PyError SessionObj :=
  if o.revoked then
    match o.py_revoked_at with
    | none => .error .attributeError
    | some none => .ok { o with py_revoked_at := some (some now) }
    | some (some _) => .ok o
  else
    .ok { o with revoked := true, py_revoked_at := some (some now) }

/-- What one `mark_revoked` call does to the *committed* row it was
loaded from: load, run the method, flush the mapped columns. -/
def markRevokedPersisted (now : Int) (r : SessionRow) : Except PyError SessionRow :=
  (mark_revoked_obj now (loadObj r)).map (flushObj r)

/-- `MemberOut` (`app/schemas/member.py`), restricted to the fields the
session claims consume. -/
structure MemberOut where
  id : String
  email : String
  display_name : String
  role : MemberRole
deriving Repr, DecidableEq

/-- `member_to_schema` (`app/schemas/member.py`): `MemberOut.model_validate`
reading the attributes of a `Member` row. -/
def member_to_schema (m : Member) : MemberOut :=
  ⟨m.id, m.email, m.display_name, m.role⟩

/-- `EncodedTokens` from `app/security/jwt.py` (JWT contents are an
out-of-scope collaborator; only the shape matters here). -/
structure EncodedTokens where
  access_token : String
  refresh_token : String
deriving Repr, DecidableEq

/-- `AuthResult` (`app/services/auth_service.py`): the dataclass
`AuthService.authenticate` returns. -/
structure AuthResult where
  member : MemberOut
  tokens : EncodedTokens
deriving Repr, DecidableEq

/-- The attributes the dataclass `AuthResult` declares: exactly
`member` and `tokens`. -/
def authResultFields : List String := ["member", "tokens"]

/-- HTTP-boundary failures of the sign-in flow: 422 for a malformed
email, 401 for bad credentials, and the uncaught Python exceptions that
surface as 500s (`attributeError` from the `member.id` read,
`storeError` carrying whatever `create_session` raised). -/
inductive HttpFailure where
  | invalidEmail
  | invalidCredentials
  | attributeError
  | storeError (e : StoreError)
deriving Repr, DecidableEq

/-- The Python attribute read `member.id` performed at the top of
`SessionService.create_session` (line 35 of
`app/services/session_service.py`) on the value the sign-in route passes
as `member` — which, per `app/routers/auth.py` line 50, is the
`AuthResult` returned by `AuthService.authenticate`, not a `Member` row.
`AuthResult` declares only the attributes in `authResultFields`, so the
read raises `AttributeError`. -/
def pyGetattrId (_ : AuthResult) : Except HttpFailure String :=
  .error .attributeError

/-- `get_member_by_email` (`app/crud/member.py`) as consumed by
`AuthService.authenticate`: a malformed email raises `ValueError`, which
`authenticate` converts to the 422 response; otherwise the member table
is searched by email.  Email validity (pydantic `EmailStr`) is an
external collaborator, passed in as a predicate. -/
def get_member_by_email (validEmail : String → Bool) (members : List Member)
    (email : String) : Except HttpFailure (Option Member) :=
  if validEmail email then .ok (members.find? (fun m => m.email = email))
  else .error .invalidEmail

/-- `AuthService.authenticate` (`app/services/auth_service.py`): look the
member up by email; `if not member or not verify_password(...)` raise the
401; otherwise wrap the member's schema and freshly issued tokens in an
`AuthResult`.  Password verification and token issuance are opaque
collaborators, passed in as functions. -/
def authenticate (validEmail : String → Bool) (verify : String → String → Bool)
    (issueTokens : Member → EncodedTokens) (members : List Member)
    (email password : String) : Except HttpFailure AuthResult := do
  let found ← get_member_by_email validEmail members email
  match found with
  | none => .error .invalidCredentials
  | some m =>
      if verify password m.password_hash then
        .ok ⟨member_to_schema m, issueTokens m⟩
      else .error .invalidCredentials

/-- The `response.set_cookie(...)` call of the sign-in route, field by
field. -/
structure SetCookie where
  key : String
  value : String
  httponly : Bool
  secure : Bool
  samesite : String
  max_age : Option Int
  domain : Option String
  path : String
deriving Repr, DecidableEq

/-- The `signin` route (`app/routers/auth.py`): authenticate, then call
`create_session(member=..., user_agent=..., ip_addr=...)` with the value
`authenticate` returned, then set the session cookie from the settings
and the new session's id.  `create_session` begins by reading `.id`
from its `member` argument, embedded by `pyGetattrId`; the response body
(`member_to_schema(member)` on the same value) lies beyond that point
and is not modelled. -/
def signin (validEmail : String → Bool) (verify : String → String → Bool)
    (issueTokens : Member → EncodedTokens) (settings : SessionSettings)
    (members : List Member) (db : List SessionRow)
    (raceFail : Nat → Bool) (newId : Nat → String)
    (email password : String) (ua ip : Option String) (now : Int) :
    Except HttpFailure (SetCookie × List SessionRow) := do
  let r ← authenticate validEmail verify issueTokens members email password
  let memberId ← pyGetattrId r
  match (create_session raceFail newId db memberId ua ip now).2 with
  | .error e => .error (.storeError e)
  | .ok (s, db2) =>
      .ok (⟨settings.cookie_name, s.id, true, settings.cookie_secure,
            settings.cookie_samesite, settings.cookie_max_age_seconds,
            settings.cookie_domain, settings.cookie_path⟩, db2)

/-! ## Helper lemmas -/

/-- The bulk revoke statement always raises the unmapped-column error,
because its values dict names `revoked_at` and the `Session` class maps
no such column. -/
theorem bulkRevokeActive_raises (db : List SessionRow) (memberId : String)
    (now : Int) :
    bulkRevokeActive db memberId now = .error .unmappedColumnError := rfl

/-- Consequently `create_session` fails on its first attempt, with that
same non-`IntegrityError`, for every input: the retry loop and the
insert are never reached. -/
theorem create_session_raises (raceFail : Nat → Bool) (newId : Nat → String)
    (db : List SessionRow) (memberId : String) (ua ip : Option String)
    (now : Int) :
    create_session raceFail newId db memberId ua ip now
      = (1, .error .unmappedColumnError) := rfl

/-- `mark_revoked` always leaves the row revoked. -/
theorem mark_revoked_revoked (now : Int) (s : SessionRow) :
    (mark_revoked now s).revoked = true := by
  unfold mark_revoked
  by_cases h : s.revoked
  · by_cases h2 : s.revoked_at = none <;> simp [h, h2]
  · simp [h]

/-! ## Claim theorems -/

/-- C1 (defect exhibited): the claimed contract can never be realised,
because `create_session` never returns successfully.  Its first
statement, the bulk revoke, names the values key `revoked_at`, which is
not a mapped column of the `Session` class, so SQLAlchemy raises a
non-`IntegrityError` on every call — before any insert — and the
`except IntegrityError` clause does not catch it: the call fails on
attempt 1 with the table unchanged, for every race outcome, every
store, every member.  No committed state with "the returned session as
the only non-revoked row" is ever produced by this method. -/
theorem C1_create_session_never_succeeds (raceFail : Nat → Bool)
    (newId : Nat → String) (db : List SessionRow) (memberId : String)
    (ua ip : Option String) (now : Int) :
    create_session raceFail newId db memberId ua ip now
      = (1, .error .unmappedColumnError)
    ∧ (∀ (k : Nat) (s : SessionRow) (db2 : List SessionRow),
        create_session raceFail newId db memberId ua ip now ≠ (k, .ok (s, db2)))
    ∧ "revoked_at" ∈ bulkRevokeUpdateKeys
    ∧ "revoked_at" ∉ sessionModelColumns := by
  refine ⟨create_session_raises raceFail newId db memberId ua ip now, ?_,
    by decide, by decide⟩
  intro k s db2 h
  rw [create_session_raises] at h
  simp at h

/-- C2 (defect exhibited): the claimed retry policy is dead code.  Every
call fails on attempt 1 — the attempts counter never reaches 2 — and the
propagated error is the unmapped-column error raised by the revoke-all
statement, not the `IntegrityError` the except-clause rolls back and
retries on; the insert whose constraint violation the claim describes is
never even reached. -/
theorem C2_retry_never_reached (raceFail : Nat → Bool) (newId : Nat → String)
    (db : List SessionRow) (memberId : String) (ua ip : Option String)
    (now : Int) :
    (create_session raceFail newId db memberId ua ip now).1 = 1
    ∧ (create_session raceFail newId db memberId ua ip now).2
        = .error .unmappedColumnError
    ∧ StoreError.unmappedColumnError ≠ StoreError.integrityError := by
  refine ⟨?_, ?_, by decide⟩
  · rw [create_session_raises]
  · rw [create_session_raises]

/-- C3: when the Guard finds an active session that is past its absolute
timeout, the absolute check is decided first: the session is revoked via
`mark_revoked` and the request fails with `absolute_expired`, even when
the idle timeout is exceeded as well — never with `idle_expired`. -/
theorem C3_absolute_precedence (settings : SessionSettings)
    (members : List Member) (db : List SessionRow)
    (cookies : String → Option String) (sid : String) (s : SessionRow)
    (now : Int) (hc : cookies settings.cookie_name = some sid)
    (hs : sid ≠ "") (hfind : get_active_session db sid = some s)
    (habs : now - s.created_at > absoluteTimeout settings)
    (_hidle : now - s.last_active_at > idleTimeout settings) :
    (require_session settings members db cookies now).1 = .error .absoluteExpired
    ∧ (require_session settings members db cookies now).2
        = markRevokedById db s.id now
    ∧ (mark_revoked now s).revoked = true := by
  unfold require_session
  rw [hc]
  simp only [if_neg hs, hfind, if_pos habs]
  exact ⟨trivial, trivial, mark_revoked_revoked now s⟩

/-- Witness for C3 at a concrete input: timeouts of 1 minute and 1 hour,
a session created and last used at time 0, validated at time 100000 —
past both timeouts; the Guard answers `absolute_expired` and revokes. -/
theorem C3_witness :
    ((fun n => if n = "session_id" then some "a" else none) ("session_id") = some "a"
      ∧ "a" ≠ ""
      ∧ get_active_session [(⟨"a", "m", 0, 0, none, none, false, none⟩ : SessionRow)] "a"
          = some ⟨"a", "m", 0, 0, none, none, false, none⟩
      ∧ (100000 : Int) - 0 > absoluteTimeout ⟨1, 1, "session_id", false, "lax", none, "/", none, true⟩
      ∧ (100000 : Int) - 0 > idleTimeout ⟨1, 1, "session_id", false, "lax", none, "/", none, true⟩)
    ∧ ((require_session ⟨1, 1, "session_id", false, "lax", none, "/", none, true⟩ []
          [⟨"a", "m", 0, 0, none, none, false, none⟩]
          (fun n => if n = "session_id" then some "a" else none) 100000).1
        = .error .absoluteExpired
      ∧ (require_session ⟨1, 1, "session_id", false, "lax", none, "/", none, true⟩ []
          [⟨"a", "m", 0, 0, none, none, false, none⟩]
          (fun n => if n = "session_id" then some "a" else none) 100000).2
        = markRevokedById [⟨"a", "m", 0, 0, none, none, false, none⟩] "a" 100000
      ∧ (mark_revoked 100000 ⟨"a", "m", 0, 0, none, none, false, none⟩).revoked = true) :=
  ⟨⟨rfl, by decide, rfl, by decide, by decide⟩,
    C3_absolute_precedence ⟨1, 1, "session_id", false, "lax", none, "/", none, true⟩ []
      [⟨"a", "m", 0, 0, none, none, false, none⟩]
      (fun n => if n = "session_id" then some "a" else none) "a"
      ⟨"a", "m", 0, 0, none, none, false, none⟩ 100000
      rfl (by decide) rfl (by decide) (by decide)⟩

/-- C4: the claimed idempotent persistence of `mark_revoked` fails on
the code.  On an active committed row, the first call commits
`revoked = true` but the committed `revoked_at` stays NULL — it is never
"set to the time of the first call", because the ORM class `Session`
maps no `revoked_at` column (`sessionModelColumns`), although the
migrated table has one (`sessionsTableColumns`); and a second call on
the freshly reloaded row does not act as a no-op: its read of
`session.revoked_at` raises `AttributeError`. -/
theorem C4_mark_revoked_persistence_defect :
    markRevokedPersisted 5 ⟨"s1", "m1", 0, 0, none, none, false, none⟩
      = .ok ⟨"s1", "m1", 0, 0, none, none, true, none⟩
    ∧ SessionRow.revoked_at ⟨"s1", "m1", 0, 0, none, none, true, none⟩ = none
    ∧ markRevokedPersisted 9 ⟨"s1", "m1", 0, 0, none, none, true, none⟩
      = .error .attributeError
    ∧ "revoked_at" ∉ sessionModelColumns
    ∧ "revoked_at" ∈ sessionsTableColumns :=
  ⟨rfl, rfl, rfl, by decide, by decide⟩

/-- C5: the invariant "`revoked_at` is null iff `revoked` is false" is
violated by the code: revoking an active committed row through
`mark_revoked` commits a row with `revoked = true` and `revoked_at`
still NULL, because the flush persists only the columns the ORM class
maps and `revoked_at` is not among them. -/
theorem C5_revoked_at_invariant_defect :
    markRevokedPersisted 7 ⟨"s2", "m2", 1, 1, none, none, false, none⟩
      = .ok ⟨"s2", "m2", 1, 1, none, none, true, none⟩
    ∧ SessionRow.revoked ⟨"s2", "m2", 1, 1, none, none, true, none⟩ = true
    ∧ SessionRow.revoked_at ⟨"s2", "m2", 1, 1, none, none, true, none⟩ = none :=
  ⟨rfl, rfl, rfl⟩

/-- C6 counterexample: `slide_session` called with a timestamp earlier
than the stored `last_active_at` *decreases* the persisted value — here
a row created and last active at time 10 is slid with timestamp 3,
ending below both its previous `last_active_at` and its `created_at`,
contradicting the claim at this input. -/
theorem C6_counterexample :
    slide_session [(⟨"c", "m", 10, 10, none, none, false, none⟩ : SessionRow)] "c" 3
      = [⟨"c", "m", 10, 3, none, none, false, none⟩]
    ∧ (slide_row 3 ⟨"c", "m", 10, 10, none, none, false, none⟩).last_active_at
        < SessionRow.last_active_at ⟨"c", "m", 10, 10, none, none, false, none⟩
    ∧ (slide_row 3 ⟨"c", "m", 10, 10, none, none, false, none⟩).last_active_at
        < SessionRow.created_at ⟨"c", "m", 10, 10, none, none, false, none⟩ :=
  ⟨rfl, by decide, by decide⟩

/-- C6 (amended): `slide_session` stores exactly the supplied timestamp;
consequently `last_active_at` never decreases — and never regresses
below `created_at` — provided the timestamp is no earlier than the
current value (resp. `created_at`), which is how the Guard invokes it
(with the validation instant that just passed both checks). -/
theorem C6_slide_sets_timestamp (r : SessionRow) (t : Int) :
    (slide_row t r).last_active_at = t
    ∧ (r.last_active_at ≤ t → r.last_active_at ≤ (slide_row t r).last_active_at)
    ∧ (r.created_at ≤ t → r.created_at ≤ (slide_row t r).last_active_at) :=
  ⟨rfl, fun h => h, fun h => h⟩

/-- Witness for the amended C6 at a concrete input: sliding forward from
10 to 12 stores 12 and does not decrease the value. -/
theorem C6_witness :
    ((10 : Int) ≤ 12)
    ∧ (slide_row 12 ⟨"c", "m", 10, 10, none, none, false, none⟩).last_active_at = 12
    ∧ SessionRow.last_active_at ⟨"c", "m", 10, 10, none, none, false, none⟩
        ≤ (slide_row 12 ⟨"c", "m", 10, 10, none, none, false, none⟩).last_active_at
    ∧ SessionRow.created_at ⟨"c", "m", 10, 10, none, none, false, none⟩
        ≤ (slide_row 12 ⟨"c", "m", 10, 10, none, none, false, none⟩).last_active_at :=
  ⟨by decide,
    (C6_slide_sets_timestamp ⟨"c", "m", 10, 10, none, none, false, none⟩ 12).1,
    (C6_slide_sets_timestamp ⟨"c", "m", 10, 10, none, none, false, none⟩ 12).2.1 (by decide),
    (C6_slide_sets_timestamp ⟨"c", "m", 10, 10, none, none, false, none⟩ 12).2.2 (by decide)⟩

/-- C7: `get_active_session` returns a session exactly when a row with
that id exists and is not revoked; a missing row and a revoked row both
yield `None`, indistinguishably. -/
theorem C7_get_active_session (db : List SessionRow) (sid : String) :
    (∀ s, get_active_session db sid = some s
      ↔ (findById db sid = some s ∧ s.revoked = false))
    ∧ (findById db sid = none → get_active_session db sid = none)
    ∧ (∀ s, findById db sid = some s → s.revoked = true →
        get_active_session db sid = none) := by
  have key : ∀ r, findById db sid = some r →
      get_active_session db sid = if r.revoked = true then none else some r := by
    intro r hf
    unfold get_active_session
    rw [hf]
  have keynone : findById db sid = none → get_active_session db sid = none := by
    intro hf
    unfold get_active_session
    rw [hf]
  refine ⟨?_, keynone, ?_⟩
  · intro s
    constructor
    · intro h
      cases hf : findById db sid with
      | none => rw [keynone hf] at h; cases h
      | some r =>
          rw [key r hf] at h
          by_cases hr : r.revoked = true
          · rw [if_pos hr] at h; cases h
          · rw [if_neg hr] at h
            obtain rfl := Option.some.inj h
            exact ⟨rfl, by simpa using hr⟩
    · rintro ⟨hf, hr⟩
      rw [key s hf, hr]
      simp
  · intro s hf hr
    rw [key s hf, if_pos hr]

/-- Witness for C7 at a concrete store holding one active row `x` and
one revoked row `y`: the missing id `zz` and the revoked id `y` are both
answered `none`, and `x` is returned exactly because it exists
non-revoked. -/
theorem C7_witness :
    (get_active_session [(⟨"x", "m", 0, 0, none, none, false, none⟩ : SessionRow),
        ⟨"y", "m", 0, 0, none, none, true, some 1⟩] "zz" = none
      ∧ get_active_session [(⟨"x", "m", 0, 0, none, none, false, none⟩ : SessionRow),
          ⟨"y", "m", 0, 0, none, none, true, some 1⟩] "y" = none
      ∧ get_active_session [(⟨"x", "m", 0, 0, none, none, false, none⟩ : SessionRow),
          ⟨"y", "m", 0, 0, none, none, true, some 1⟩] "x"
        = some ⟨"x", "m", 0, 0, none, none, false, none⟩) :=
  ⟨(C7_get_active_session [⟨"x", "m", 0, 0, none, none, false, none⟩,
      ⟨"y", "m", 0, 0, none, none, true, some 1⟩] "zz").2.1 (by decide),
   (C7_get_active_session [⟨"x", "m", 0, 0, none, none, false, none⟩,
      ⟨"y", "m", 0, 0, none, none, true, some 1⟩] "y").2.2
      ⟨"y", "m", 0, 0, none, none, true, some 1⟩ (by decide) rfl,
   ((C7_get_active_session [⟨"x", "m", 0, 0, none, none, false, none⟩,
      ⟨"y", "m", 0, 0, none, none, true, some 1⟩] "x").1
      ⟨"x", "m", 0, 0, none, none, false, none⟩).mpr ⟨by decide, rfl⟩⟩

/-- C8: the claim fails on the code.  With credentials that authenticate
(`authenticate` succeeds), `signin` does not create a session or set the
cookie: it passes the `AuthResult` wrapper to `create_session` as
`member`, whose immediate read of `member.id` raises `AttributeError`
(`AuthResult` declares only `member` and `tokens`), so the request ends
in an internal error before any session exists. -/
theorem C8_signin_attribute_error :
    authenticate (fun _ => true) (fun p h => p = h) (fun _ => ⟨"t", "r"⟩)
        [⟨"m1", "reader@example.com", "Example User", "pw", .user⟩]
        "reader@example.com" "pw"
      = .ok ⟨⟨"m1", "reader@example.com", "Example User", .user⟩, ⟨"t", "r"⟩⟩
    ∧ signin (fun _ => true) (fun p h => p = h) (fun _ => ⟨"t", "r"⟩)
        ⟨30, 24, "session_id", false, "lax", none, "/", none, true⟩
        [⟨"m1", "reader@example.com", "Example User", "pw", .user⟩] []
        (fun _ => false) (fun _ => "b") "reader@example.com" "pw" none none 0
      = .error .attributeError
    ∧ "id" ∉ authResultFields :=
  ⟨rfl, rfl, by decide⟩

/-- C9 (defect exhibited): the claimed round trip can never start.
`create_session` fails on every call — evaluated here at a concrete
input (member `m`, empty store, time 0) and shown in general — because
its revoke-all statement names the unmapped `revoked_at` column; no
session is ever returned, so there is never a freshly minted session id
to present to the Guard, and "create then validate immediately
succeeds" is unsatisfiable. -/
theorem C9_round_trip_unreachable :
    create_session (fun _ => false) (fun _ => "b") [] "m" none none 0
      = (1, .error .unmappedColumnError)
    ∧ ∀ (raceFail : Nat → Bool) (newId : Nat → String) (db : List SessionRow)
        (memberId : String) (ua ip : Option String) (now : Int),
        ¬∃ (k : Nat) (s : SessionRow) (db2 : List SessionRow),
          create_session raceFail newId db memberId ua ip now
            = (k, .ok (s, db2)) := by
  refine ⟨rfl, ?_⟩
  intro raceFail newId db memberId ua ip now
  rintro ⟨k, s, db2, h⟩
  rw [create_session_raises] at h
  simp at h

/-- C10: with no session environment variables set,
`get_session_settings` yields exactly the documented defaults, and the
pydantic `ge=1` bounds reject any configured idle or absolute timeout
below 1. -/
theorem C10_default_settings :
    get_session_settings (fun _ => none)
      = .ok ⟨30, 24, "session_id", false, "lax", none, "/", none, true⟩
    ∧ (∀ v : Int, v < 1 →
        (∀ name secure samesite domain path maxAge hdr,
          SessionSettings.make v 24 name secure samesite domain path maxAge hdr
            = .error .invalidIdleTimeout)
        ∧ (∀ name secure samesite domain path maxAge hdr,
          SessionSettings.make 30 v name secure samesite domain path maxAge hdr
            = .error .invalidAbsoluteTimeout)) := by
  constructor
  · rfl
  · intro v hv
    constructor
    · intro name secure samesite domain path maxAge hdr
      unfold SessionSettings.make
      rw [if_pos hv]
    · intro name secure samesite domain path maxAge hdr
      unfold SessionSettings.make
      rw [if_neg (by norm_num), if_pos hv]

/-- Witness for C10's rejection clause at the concrete value 0. -/
theorem C10_witness :
    ((0 : Int) < 1)
    ∧ SessionSettings.make 0 24 "session_id" false "lax" none "/" none true
        = .error .invalidIdleTimeout
    ∧ SessionSettings.make 30 0 "session_id" false "lax" none "/" none true
        = .error .invalidAbsoluteTimeout :=
  ⟨by decide,
    (C10_default_settings.2 0 (by decide)).1 "session_id" false "lax" none "/" none true,
    (C10_default_settings.2 0 (by decide)).2 "session_id" false "lax" none "/" none true⟩

end App
